import Mathlib

/-!
Shallow embedding of the provider resolution and artifact acquisition
pipeline of PlayPort (`src/playport.py`): the version catalog normalizer
(`fetch_versions`), the artifact resolver and downloader
(`download_server_jar`), and the installer runner (`run_installer`),
together with the glue in `PlayPort.create_server` that picks the server
executable.

Network effects are modelled by explicit world arguments (an upstream
response for `fetch_versions`, a URL-indexed oracle for
`download_server_jar`).  JSON values are modelled by the inductive `JVal`,
and the relevant pieces of Python runtime semantics (subscripting,
`dict.get`, iteration, slicing, truthiness, `str()`) are modelled by
explicit total functions: `none` results stand for the exception the
corresponding Python operation would raise, which the source catches at
its adapter boundaries.  Strings are handled with ASCII semantics
(`str.lower`, `int()` digit parsing), which covers all identifiers the
program manipulates.
-/

/-- A parsed JSON value (numbers restricted to integers, which covers all
upstream fields the program consumes). -/
inductive JVal where
  | jnull
  | jbool (b : Bool)
  | jnum (n : Int)
  | jstr (s : String)
  | jarr (xs : List JVal)
  | jobj (fields : List (String × JVal))

/-- Python truthiness (`if not x`) for modelled JSON values. -/
def pyFalsy : JVal → Bool
  | .jnull => true
  | .jbool b => !b
  | .jnum n => n == 0
  | .jstr s => s.data.isEmpty
  | .jarr xs => xs.isEmpty
  | .jobj fs => fs.isEmpty

/-- Python truthiness of an optional string argument (`None` or a string). -/
def optFalsy : Option String → Bool
  | none => true
  | some s => s.data.isEmpty

/-- Python subscripting `x[k]` with a string key: succeeds only on a dict
that has the key; `none` models the `KeyError`/`TypeError` raised
otherwise. -/
def jget : JVal → String → Option JVal
  | .jobj fs, k => (fs.find? (fun f => f.1 == k)).map (·.2)
  | _, _ => none

/-- Python `x.get(k, default)`: requires a dict (`none` models the
`AttributeError` on any other value), returns the default when the key is
absent. -/
def jgetD : JVal → String → JVal → Option JVal
  | .jobj fs, k, d => some (((fs.find? (fun f => f.1 == k)).map (·.2)).getD d)
  | _, _, _ => none

/-- Python iteration `for x in v`: lists yield their elements, strings
their characters, dicts their keys; `none` models the `TypeError` on
non-iterable values. -/
def iteratePy : JVal → Option (List JVal)
  | .jarr xs => some xs
  | .jstr s => some (s.data.map (fun c => JVal.jstr (String.mk [c])))
  | .jobj fs => some (fs.map (fun f => JVal.jstr f.1))
  | _ => none

/-- Python `v[0]`: first element of a list, first character of a string;
`none` models the `IndexError`/`TypeError`/`KeyError` otherwise (a dict
subscripted with `0` looks up the key `0`, which the modelled upstream
objects, keyed by strings, never have). -/
def pyIndex0 : JVal → Option JVal
  | .jarr (x :: _) => some x
  | .jstr s => match s.data with
    | c :: _ => some (.jstr (String.mk [c]))
    | [] => none
  | _ => none

/-- Python `v[-1]`: last element of a list, last character of a string;
`none` models the exception otherwise. -/
def pyLast : JVal → Option JVal
  | .jarr xs => match xs.getLast? with
    | some x => some x
    | none => none
  | .jstr s => match s.data.getLast? with
    | some c => some (.jstr (String.mk [c]))
    | none => none
  | _ => none

/-- Python `v[::-1][:100]` as applied by `fetch_versions` to JSON data:
defined on lists and (degenerately) strings, `none` models the
`TypeError` on anything else. -/
def revTake100 : JVal → Option JVal
  | .jarr xs => some (.jarr (xs.reverse.take 100))
  | .jstr s => some (.jstr (String.mk (s.data.reverse.take 100)))
  | _ => none

mutual

/-- Python `str()` of a modelled JSON value (`repr` for nested
containers, with the simplification that strings inside containers are
rendered without quoting). -/
def pyStr : JVal → String
  | .jnull => "None"
  | .jbool true => "True"
  | .jbool false => "False"
  | .jnum n => toString n
  | .jstr s => s
  | .jarr xs => "[" ++ pyStrList xs ++ "]"
  | .jobj fs => "dict(" ++ pyStrFields fs ++ ")"

/-- Comma-separated rendering of a list of values. -/
def pyStrList : List JVal → String
  | [] => ""
  | [x] => pyStr x
  | x :: xs => pyStr x ++ ", " ++ pyStrList xs

/-- Comma-separated rendering of the fields of an object. -/
def pyStrFields : List (String × JVal) → String
  | [] => ""
  | [f] => f.1 ++ ": " ++ pyStr f.2
  | f :: fs => f.1 ++ ": " ++ pyStr f.2 ++ ", " ++ pyStrFields fs

end

/-- Python `x == s` where `s` is a string: value equality on strings,
`False` (no exception) on every other value. -/
def pyEqStr (v : JVal) (s : String) : Bool :=
  match v with
  | .jstr t => t == s
  | _ => false

/-- Whether a character list starts with the given pattern. -/
def hasPrefixL : List Char → List Char → Bool
  | [], _ => true
  | _ :: _, [] => false
  | a :: as, b :: bs => a == b && hasPrefixL as bs

/-- Whether a character list contains the given pattern as a contiguous
run (Python `pat in s`). -/
def hasInfixL (pat : List Char) : List Char → Bool
  | [] => pat.isEmpty
  | c :: rest => hasPrefixL pat (c :: rest) || hasInfixL pat rest

/-- Python `pat in s` on strings. -/
def containsSub (s pat : String) : Bool := hasInfixL pat.data s.data

/-- Python `s.endswith(suffix)`. -/
def endsWithPy (s suffix : String) : Bool :=
  hasPrefixL suffix.data.reverse s.data.reverse

/-- ASCII `str.lower` (every identifier the program lowercases is ASCII). -/
def lowerChar (c : Char) : Char :=
  if 'A' ≤ c && c ≤ 'Z' then Char.ofNat (c.toNat + 32) else c

/-- Python `s.lower()` under the ASCII model. -/
def lowerStr (s : String) : String := String.mk (s.data.map lowerChar)

/-- Python `s.rstrip(chr)`: remove all trailing occurrences. -/
def rstripChar (s : String) (c : Char) : String :=
  String.mk (s.data.reverse.dropWhile (· == c)).reverse

/-- Splitting a character list at every separator character, keeping empty
segments, as `re.split` and `str.split` do. -/
def splitCharsAux (p : Char → Bool) : List Char → List Char → List (List Char)
  | [], acc => [acc.reverse]
  | c :: rest, acc =>
    if p c then acc.reverse :: splitCharsAux p rest [] else splitCharsAux p rest (c :: acc)

/-- Python `int(part)` restricted to ASCII digit runs; `none` models the
`ValueError` on everything else. -/
def pyInt? (cs : List Char) : Option Int :=
  if cs ≠ [] ∧ cs.all Char.isDigit then
    some (cs.foldl (fun acc c => acc * 10 + (c.toNat - 48)) 0)
  else none

/-- Python `s.replace(old, new)` (left to right, non-overlapping), with a
structural fuel equal to the string length; the degenerate empty pattern,
which the program never uses, is left unreplaced. -/
def replaceFuel (old new : List Char) : Nat → List Char → List Char
  | 0, s => s
  | _ + 1, [] => []
  | fuel + 1, c :: rest =>
    if old ≠ [] ∧ hasPrefixL old (c :: rest) then
      new ++ replaceFuel old new fuel ((c :: rest).drop old.length)
    else
      c :: replaceFuel old new fuel rest

/-- Python `s.replace(old, new)` on strings. -/
def replacePy (s old new : String) : String :=
  String.mk (replaceFuel old.data new.data s.data.length s.data)

/-- Strict less-than on version key tuples, i.e. Python tuple comparison
of the `tuple(int, ...)` keys produced by `version_key` (a strict prefix
compares below its extensions). -/
def keyLtB : List Int → List Int → Bool
  | [], [] => false
  | [], _ :: _ => true
  | _ :: _, [] => false
  | a :: as, b :: bs => if a < b then true else if b < a then false else keyLtB as bs

/-- `version_key` (playport.py:763): split on `.` and `-`, turn each
segment into an int when it is numeric and `0` otherwise. -/
def version_key (v : String) : List Int :=
  (splitCharsAux (fun c => c == '.' || c == '-') v.data []).map
    (fun part => (pyInt? part).getD 0)

/-- The order in which Python's stable `sort(key=version_key,
reverse=True)` lays out two strings: the first compares no lower than the
second. -/
def descR (a b : String) : Prop := keyLtB (version_key a) (version_key b) = false

instance : DecidableRel descR := fun a b => by
  unfold descR; infer_instance

/-- `versions.sort(key=version_key, reverse=True)`: the stable descending
sort used by the Forge/NeoForge and Spigot adapters. -/
def sortDescStr (l : List String) : List String := List.insertionSort descR l

/-- `DUMMY_VERSIONS` (playport.py:51): the fallback list
`["1.100", "1.99", ..., "1.1"]`. -/
def DUMMY_VERSIONS : List String :=
  (List.range 100).map (fun k => "1." ++ toString (100 - k))

/-- The dummy fallback list as the Python value `fetch_versions` returns. -/
def dummyJ : JVal := .jarr (DUMMY_VERSIONS.map .jstr)

/-- `versions_urls` (playport.py:32): the fixed per-provider endpoint
table. -/
def versions_urls (software : String) : Option String :=
  if software == "vanilla" then some "https://launchermeta.mojang.com/mc/game/version_manifest.json"
  else if software == "paper" then some "https://api.papermc.io/v2/projects/paper"
  else if software == "folia" then some "https://api.papermc.io/v2/projects/folia"
  else if software == "velocity" then some "https://api.papermc.io/v2/projects/velocity"
  else if software == "waterfall" then some "https://api.papermc.io/v2/projects/waterfall"
  else if software == "bungeecord" then some "https://ci.md-5.net/job/BungeeCord/api/json?tree=builds[number]"
  else if software == "nukkit" then some "https://ci.opencollab.dev/job/NukkitX/job/Nukkit/job/master/lastSuccessfulBuild/artifact/target/nukkit-1.0-SNAPSHOT.jar"
  else if software == "forge" then some "https://files.minecraftforge.net/maven/net/minecraftforge/forge/maven-metadata.xml"
  else if software == "pocketmine-mp" then some "https://api.github.com/repos/pmmp/PocketMine-MP/releases"
  else if software == "fabric" then some "https://meta.fabricmc.net/v2/versions/installer"
  else if software == "neoforge" then some "https://maven.neoforged.net/releases/net/neoforged/neoforge/maven-metadata.xml"
  else if software == "quilt" then some "https://meta.quiltmc.org/v3/versions/installer"
  else if software == "spigot" then some "https://hub.spigotmc.org/versions/"
  else if software == "purpur" then some "https://api.purpurmc.org/v2/purpur/"
  else if software == "pufferfish" then some "https://ci.pufferfish.host/view/all/api/json"
  else none

/-- One upstream HTTP response body, viewed through each parser the
adapters apply to it: `asXml` is the list of `versioning/versions/version`
element texts when the body is well-formed XML (an empty element has text
`None`, modelled as `none`); `asJson` is the parsed JSON value when the
body is well-formed JSON; `hrefs` is the list of anchor href attributes
BeautifulSoup extracts (HTML scraping never raises). -/
structure BodyVal where
  asXml : Option (List (Option String))
  asJson : Option JVal
  hrefs : List String

/-- The upstream world seen by one `fetch_versions` call: `none` models a
`requests` failure (network error, timeout or non-2xx status raised by
`raise_for_status`), `some body` a 2xx response with the given body. -/
def FetchWorld := Option BodyVal

/-- The strict dotted-version filter of the Spigot adapter
(`^\d+(\.\d+){1,2}$`, playport.py:797). -/
def versionPatternMatch (v : String) : Bool :=
  let parts := splitCharsAux (fun c => c == '.') v.data []
  (parts.length == 2 || parts.length == 3) &&
    parts.all (fun p => !p.isEmpty && p.all Char.isDigit)

/-- Href handling of the Spigot adapter (playport.py:800): keep anchors
ending in `.json`, strip the extension with `str.replace`, keep strict
dotted versions. -/
def spigotExtract (href : String) : Option String :=
  if endsWithPy href ".json" then
    let version := replacePy href ".json" ""
    if versionPatternMatch version then some version else none
  else none

/-- The Forge/NeoForge Maven-XML adapter (playport.py:790): collect the
version texts, sort descending, cap at 100; a `None` text makes
`version_key` raise inside `sort`, which the boundary turns into the
dummy list. -/
def fetchForge (body : BodyVal) : JVal :=
  match body.asXml with
  | none => dummyJ
  | some texts =>
    if texts.any (fun t => t.isNone) then dummyJ
    else .jarr (((sortDescStr (texts.filterMap id)).take 100).map .jstr)

/-- The Spigot HTML adapter (playport.py:796): extract versions from the
anchors, sort descending, cap at 100. -/
def fetchSpigot (body : BodyVal) : JVal :=
  .jarr (((sortDescStr (body.hrefs.filterMap spigotExtract)).take 100).map .jstr)

/-- `[v["id"] for v in vs if v["type"] == "release"]` of the Vanilla
adapter; `.error` models the exception raised on a malformed element. -/
def vanillaCollect : List JVal → Except Unit (List JVal)
  | [] => .ok []
  | v :: rest =>
    match jget v "type" with
    | none => .error ()
    | some t =>
      if pyEqStr t "release" then
        match jget v "id" with
        | none => .error ()
        | some i => (vanillaCollect rest).map (i :: ·)
      else vanillaCollect rest

/-- `[job["name"] for job in jobs]` of the Pufferfish adapter. -/
def puffCollect : List JVal → Except Unit (List JVal)
  | [] => .ok []
  | j :: rest =>
    match jget j "name" with
    | none => .error ()
    | some n => (puffCollect rest).map (n :: ·)

/-- `[v["version"] for v in data]` of the Fabric/Quilt adapter. -/
def fabricCollect : List JVal → Except Unit (List JVal)
  | [] => .ok []
  | v :: rest =>
    match jget v "version" with
    | none => .error ()
    | some x => (fabricCollect rest).map (x :: ·)

/-- `any(asset["name"].endswith(".phar") for asset in assets)` of the
PocketMine adapter, short-circuiting like Python `any`. -/
def anyPhar : List JVal → Option Bool
  | [] => some false
  | a :: rest =>
    match jget a "name" with
    | none => none
    | some (.jstr s) => if endsWithPy s ".phar" then some true else anyPhar rest
    | some _ => none

/-- The release loop of the PocketMine adapter (playport.py:820). -/
def pmCollect : List JVal → Except Unit (List JVal)
  | [] => .ok []
  | r :: rest =>
    match jgetD r "assets" (.jarr []) with
    | none => .error ()
    | some assetsV =>
      match iteratePy assetsV with
      | none => .error ()
      | some assets =>
        match anyPhar assets with
        | none => .error ()
        | some b =>
          if b then
            match jgetD r "tag_name" (.jstr "unknown") with
            | none => .error ()
            | some tag => (pmCollect rest).map (tag :: ·)
          else pmCollect rest

/-- `[str(build['number']) for build in builds]` of the BungeeCord
adapter. -/
def bungeeCollect : List JVal → Except Unit (List JVal)
  | [] => .ok []
  | b :: rest =>
    match jget b "number" with
    | none => .error ()
    | some n => (bungeeCollect rest).map (JVal.jstr (pyStr n) :: ·)

/-- The JSON dispatch of `fetch_versions` (playport.py:809): per-provider
extraction, with every raised exception recovered into the dummy list by
the surrounding handlers. -/
def fetchJson (software : String) (data : JVal) : JVal :=
  if software == "vanilla" then
    match jget data "versions" with
    | none => dummyJ
    | some vsV =>
      match iteratePy vsV with
      | none => dummyJ
      | some vs =>
        match vanillaCollect vs with
        | .error _ => dummyJ
        | .ok ids => .jarr (ids.take 100)
  else if software == "pufferfish" then
    match jgetD data "jobs" (.jarr []) with
    | none => dummyJ
    | some jv =>
      match iteratePy jv with
      | none => dummyJ
      | some jobs =>
        match puffCollect jobs with
        | .error _ => dummyJ
        | .ok names => .jarr (names.reverse.take 100)
  else if software == "purpur" then
    match jgetD data "versions" (.jarr []) with
    | none => dummyJ
    | some vv =>
      match revTake100 vv with
      | none => dummyJ
      | some r => r
  else if software == "fabric" || software == "quilt" then
    match iteratePy data with
    | none => dummyJ
    | some vs =>
      match fabricCollect vs with
      | .error _ => dummyJ
      | .ok l => .jarr (l.take 100)
  else if software == "pocketmine-mp" then
    match iteratePy data with
    | none => dummyJ
    | some rels =>
      match pmCollect rels with
      | .error _ => dummyJ
      | .ok tags => .jarr (tags.take 100)
  else if software == "bungeecord" then
    match jgetD data "builds" (.jarr []) with
    | none => dummyJ
    | some bv =>
      match iteratePy bv with
      | none => dummyJ
      | some bs =>
        match bungeeCollect bs with
        | .error _ => dummyJ
        | .ok l => .jarr (l.take 100)
  else
    match jgetD data "versions" (.jarr []) with
    | none => dummyJ
    | some vv =>
      match revTake100 vv with
      | none => dummyJ
      | some r => r

/-- `fetch_versions` (playport.py:774): lower the identifier, return the
static singleton for nukkit, the dummy list when no URL is configured or
the request fails, and otherwise dispatch on the provider family; every
parse error or unexpected shape is recovered into the dummy list. -/
def fetch_versions (software : String) (resp : FetchWorld) : JVal :=
  let sw := lowerStr software
  if sw == "nukkit" then .jarr [.jstr "Latest"]
  else
    match versions_urls sw with
    | none => dummyJ
    | some _ =>
      match resp with
      | none => dummyJ
      | some body =>
        if sw == "forge" || sw == "neoforge" then fetchForge body
        else if sw == "spigot" then fetchSpigot body
        else
          match body.asJson with
          | none => dummyJ
          | some data => fetchJson sw data

/-- Python `len` of a `fetch_versions` result (always a list or,
degenerately, a string). -/
def resLen : JVal → Nat
  | .jarr xs => xs.length
  | .jstr s => s.data.length
  | _ => 0

/-- Failure classification for `download_server_jar`, one constructor per
`return False` site family: the unknown-type guard, the per-provider
missing-version guards, the explicit "not found" diagnostics, the
`requests.exceptions.RequestException` handler, the generic exception
handler, and the final guard on an undetermined URL or file name. -/
inductive DlError where
  | unknownType
  | versionRequired (msg : String)
  | notFound (msg : String)
  | network
  | unexpected
  | undetermined

/-- The HTTP world seen by one `download_server_jar` call: per URL,
`none` models a request failure (transport error or non-2xx status) and
`some j` a 2xx response whose body parses to `j`. -/
def DlWorld := String → Option JVal

/-- `requests.get(url); res.raise_for_status(); res.json()`. -/
def getJson (w : DlWorld) (url : String) : Except DlError JVal :=
  match w url with
  | none => .error .network
  | some j => .ok j

/-- Lift a Python operation that may raise into the resolver, mapping the
raised exception to the generic handler. -/
def liftU : Option α → Except DlError α
  | some a => .ok a
  | none => .error .unexpected

/-- `next((job.get("url") for job in jobs if job.get("name") == version), None)`
of the Pufferfish branch: outer `none` models a raised exception, inner
`none` the exhausted generator. -/
def puffFindUrl : List JVal → String → Option (Option JVal)
  | [], _ => some none
  | j :: rest, v =>
    match jgetD j "name" .jnull with
    | none => none
    | some nameV =>
      if pyEqStr nameV v then
        match jgetD j "url" .jnull with
        | none => none
        | some u => some (some u)
      else puffFindUrl rest v

/-- `next((v for v in manifest["versions"] if v["id"] == version), None)`
of the Vanilla branch. -/
def vanillaFind : List JVal → String → Option (Option JVal)
  | [], _ => some none
  | x :: rest, v =>
    match jget x "id" with
    | none => none
    | some idv => if pyEqStr idv v then some (some x) else vanillaFind rest v

/-- `next((a for a in assets if a["name"].endswith(".phar")), None)` of
the PocketMine branch. -/
def findPhar : List JVal → Option (Option JVal)
  | [] => some none
  | a :: rest =>
    match jget a "name" with
    | none => none
    | some (.jstr s) => if endsWithPy s ".phar" then some (some a) else findPhar rest
    | some _ => none

/-- The Pufferfish double-indirection resolution (playport.py:865). -/
def resolvePufferfish (v : String) (w : DlWorld) : Except DlError (JVal × JVal) := do
  let base ← match versions_urls "pufferfish" with
    | some b => Except.ok b
    | none => Except.error DlError.unexpected
  let data ← getJson w base
  let jobsV ← liftU (jgetD data "jobs" (.jarr []))
  let jobs ← liftU (iteratePy jobsV)
  let urlOpt ← liftU (puffFindUrl jobs v)
  let versionUrl := urlOpt.getD .jnull
  if pyFalsy versionUrl then
    .error (.notFound ("Version " ++ v ++ " not found in Jenkins jobs for Pufferfish!"))
  else
    match versionUrl with
    | .jstr vu => do
      let vdata ← getJson w (rstripChar vu '/' ++ "/api/json")
      let buildsV ← liftU (jgetD vdata "builds" .jnull)
      if pyFalsy buildsV then .error (.notFound "No builds found for this Pufferfish version!")
      else do
        let b0 ← liftU (pyIndex0 buildsV)
        let burl ← liftU (jget b0 "url")
        match burl with
        | .jstr latestBuildUrl => do
          let bdata ← getJson w (rstripChar latestBuildUrl '/' ++ "/api/json")
          let artsV ← liftU (jgetD bdata "artifacts" .jnull)
          if pyFalsy artsV then .error (.notFound "No artifacts found in the latest Pufferfish build!")
          else do
            let a0 ← liftU (pyIndex0 artsV)
            let rp ← liftU (jget a0 "relativePath")
            match rp with
            | .jstr rel =>
              .ok (.jstr (rstripChar latestBuildUrl '/' ++ "/artifact/" ++ rel),
                .jstr ("pufferfish-server-" ++ v ++ ".jar"))
            | _ => .error .unexpected
        | _ => .error .unexpected
    | _ => .error .unexpected

/-- The Purpur latest-of-kind resolution (playport.py:904). -/
def resolvePurpur (v : String) (w : DlWorld) : Except DlError (JVal × JVal) := do
  let base ← match versions_urls "purpur" with
    | some b => Except.ok b
    | none => Except.error DlError.unexpected
  let data ← getJson w (base ++ v)
  let buildsV ← liftU (jgetD data "builds" (.jobj []))
  let latest ← liftU (jgetD buildsV "latest" .jnull)
  if pyFalsy latest then .error (.notFound ("No latest build found for Purpur version " ++ v))
  else
    .ok (.jstr ("https://api.purpurmc.org/v2/purpur/" ++ v ++ "/" ++ pyStr latest ++ "/download"),
      .jstr ("purpur_server." ++ v ++ ".jar"))

/-- The Fabric dynamic-installer-version resolution (playport.py:946):
independent of the requested server version, it looks up the installer
list and takes the first entry's own version. -/
def resolveFabric (w : DlWorld) : Except DlError (JVal × JVal) := do
  let installerUrl ← match versions_urls "fabric" with
    | some b => Except.ok b
    | none => Except.error DlError.unexpected
  let installers ← getJson w installerUrl
  let first ← liftU (pyIndex0 installers)
  let iv ← liftU (jget first "version")
  let ivs := pyStr iv
  .ok (.jstr ("https://maven.fabricmc.net/net/fabricmc/fabric-installer/" ++ ivs ++
        "/fabric-installer-" ++ ivs ++ ".jar"),
    .jstr ("fabric-installer-" ++ ivs ++ ".jar"))

/-- The PocketMine release-asset resolution (playport.py:956). -/
def resolvePocketmine (v : String) (w : DlWorld) : Except DlError (JVal × JVal) := do
  let release ← getJson w ("https://api.github.com/repos/pmmp/PocketMine-MP/releases/tags/" ++ v)
  let assetsV ← liftU (jgetD release "assets" (.jarr []))
  let assets ← liftU (iteratePy assetsV)
  let found ← liftU (findPhar assets)
  match found with
  | none => .error (.notFound ("No PHAR asset found for PocketMine-MP version " ++ v))
  | some a =>
    if pyFalsy a then .error (.notFound ("No PHAR asset found for PocketMine-MP version " ++ v))
    else do
      let du ← liftU (jget a "browser_download_url")
      let fn ← liftU (jget a "name")
      .ok (du, fn)

/-- The Vanilla manifest-indirection resolution (playport.py:1010): a
version absent from the manifest index is reported as not found; the
per-version descriptor supplies `downloads.server.url` verbatim. -/
def resolveVanilla (v : String) (w : DlWorld) : Except DlError (JVal × JVal) := do
  let manifestUrl ← match versions_urls "vanilla" with
    | some b => Except.ok b
    | none => Except.error DlError.unexpected
  let manifest ← getJson w manifestUrl
  let vsV ← liftU (jget manifest "versions")
  let vs ← liftU (iteratePy vsV)
  let found ← liftU (vanillaFind vs v)
  let vi := found.getD .jnull
  if pyFalsy vi then .error (.notFound ("Vanilla version " ++ v ++ " not found in manifest!"))
  else do
    let uV ← liftU (jget vi "url")
    match uV with
    | .jstr vurl => do
      let vdata ← getJson w vurl
      let dls ← liftU (jget vdata "downloads")
      let srv ← liftU (jget dls "server")
      let su ← liftU (jget srv "url")
      .ok (su, .jstr ("minecraft_server." ++ v ++ ".jar"))
    | _ => .error .network

/-- The PaperMC-family build-indirection resolution (playport.py:996):
fetch `{base}/versions/{version}`, take the last element of `builds`,
substitute version and build into the fixed download template. -/
def resolvePaperFamily (t v : String) (w : DlWorld) : Except DlError (JVal × JVal) := do
  let base ← match versions_urls t with
    | some b => Except.ok b
    | none => Except.error DlError.unexpected
  let buildsData ← getJson w (base ++ "/versions/" ++ v)
  let buildsV ← liftU (jget buildsData "builds")
  let latest ← liftU (pyLast buildsV)
  let fileName := t ++ "-" ++ v ++ "-" ++ pyStr latest ++ ".jar"
  .ok (.jstr ("https://api.papermc.io/v2/projects/" ++ t ++ "/versions/" ++ v ++ "/builds/" ++
        pyStr latest ++ "/downloads/" ++ fileName),
    .jstr fileName)

/-- The per-provider `if not version` guard of `download_server_jar`. -/
def requireVersion (version : Option String) (msg : String)
    (k : String → Except DlError (JVal × JVal)) : Except DlError (JVal × JVal) :=
  if optFalsy version then .error (.versionRequired msg) else k (version.getD "")

/-- The URL-determination step of `download_server_jar`
(playport.py:856-1033): the unknown-type guard, the per-provider
resolution recipes producing `(download_url, file_name)`, and the final
guard that both were determined and are truthy. -/
def resolveArtifact (server_type : String) (version : Option String) (w : DlWorld) :
    Except DlError (JVal × JVal) :=
  if (versions_urls server_type).isNone then .error .unknownType
  else
    let raw :=
      if server_type == "pufferfish" then
        requireVersion version
          "Error: version is required for Pufferfish server (e.g., 1.19, 1.20.1)."
          (fun v => resolvePufferfish v w)
      else if server_type == "purpur" then
        requireVersion version
          "Error: version is required for Purpur server (e.g., 1.19.4, 1.20.1)."
          (fun v => resolvePurpur v w)
      else if server_type == "spigot" then
        requireVersion version
          "Error: version is required for Spigot server (e.g., 1.19.4, 1.20.1)."
          (fun v => .ok (.jstr ("https://cdn.getbukkit.org/spigot/spigot-" ++ v ++ ".jar"),
            .jstr ("spigot-" ++ v ++ ".jar")))
      else if server_type == "quilt" then
        requireVersion version
          "Error: version is required for Quilt installer (e.g., 0.19.0)."
          (fun v => .ok (.jstr ("https://maven.quiltmc.org/repository/release/org/quiltmc/quilt-installer/" ++
              v ++ "/quilt-installer-" ++ v ++ ".jar"),
            .jstr ("quilt-installer-" ++ v ++ ".jar")))
      else if server_type == "neoforge" then
        requireVersion version
          "Error: version is required for NeoForge installer (e.g., 20.4.220)."
          (fun v => .ok (.jstr ("https://maven.neoforged.net/releases/net/neoforged/neoforge/" ++
              v ++ "/neoforge-" ++ v ++ "-installer.jar"),
            .jstr ("neoforge-" ++ v ++ "-installer.jar")))
      else if server_type == "fabric" then resolveFabric w
      else if server_type == "pocketmine-mp" then
        requireVersion version
          "Error: version is required for PocketMine-MP (e.g., 4.0.0)."
          (fun v => resolvePocketmine v w)
      else if server_type == "forge" then
        requireVersion version
          "Error: version is required for Forge installer (e.g., 1.19.4-45.0.49)."
          (fun v => .ok (.jstr ("https://maven.minecraftforge.net/net/minecraftforge/forge/" ++
              v ++ "/forge-" ++ v ++ "-installer.jar"),
            .jstr ("forge-" ++ v ++ "-installer.jar")))
      else if server_type == "nukkit" then
        match versions_urls "nukkit" with
        | some u => .ok (.jstr u, .jstr "nukkit.jar")
        | none => .error .unexpected
      else if server_type == "bungeecord" then
        requireVersion version
          "Error: version (build number) is required for BungeeCord (e.g., 1700)."
          (fun v => .ok (.jstr ("https://ci.md-5.net/job/BungeeCord/" ++ v ++
              "/artifact/bootstrap/target/BungeeCord.jar"),
            .jstr ("BungeeCord-" ++ v ++ ".jar")))
      else if server_type == "waterfall" || server_type == "velocity" ||
          server_type == "folia" || server_type == "paper" then
        requireVersion version
          ("Error: version is required for " ++ server_type ++ " server (e.g., 1.19, 1.20.1).")
          (fun v => resolvePaperFamily server_type v w)
      else if server_type == "vanilla" then
        requireVersion version
          "Error: version is required for Vanilla server (e.g., 1.19.4, 1.20.1)."
          (fun v => resolveVanilla v w)
      else .error .undetermined
    match raw with
    | .error e => .error e
    | .ok (u, f) => if pyFalsy u || pyFalsy f then .error .undetermined else .ok (u, f)

/-- Directories and files present on disk. -/
structure FS where
  dirs : List String
  files : List String

/-- `Path.mkdir(parents=True, exist_ok=True)`. -/
def FS.mkdirP (fs : FS) (d : String) : FS := { fs with dirs := d :: fs.dirs }

/-- Writing a file. -/
def FS.addFile (fs : FS) (f : String) : FS := { fs with files := f :: fs.files }

/-- `download_server_jar` (playport.py:839): create the destination
directory first, determine the URL and file name, then stream the
download; the result is the path of the downloaded artifact, or `none`
where the source returns `False`. -/
def download_server_jar (server_type : String) (version : Option String)
    (dest_folder : String) (w : DlWorld) (fs : FS) : FS × Option String :=
  let fs1 := fs.mkdirP dest_folder
  match resolveArtifact server_type version w with
  | .error _ => (fs1, none)
  | .ok (u, f) =>
    match f with
    | .jstr fname =>
      let jarPath := dest_folder ++ "/" ++ fname
      match u with
      | .jstr url =>
        match w url with
        | none => (fs1, none)
        | some _ => (fs1.addFile jarPath, some jarPath)
      | _ => (fs1, none)
    | _ => (fs1, none)

/-- Failure classification for `run_installer`, one constructor per
`return False` site: missing installer file, missing Minecraft version
for Fabric/Quilt, unsupported installer name, nonzero installer exit (or
unexpected exception), and no candidate Forge jar after installation. -/
inductive InstFailure where
  | installerMissing
  | mcVersionRequired
  | unsupported
  | processError
  | noForgeJar

/-- Result of `run_installer`: a discovered executable path, the Python
`True` sentinel meaning "use the artifact already downloaded", or a
failure (Python `False`). -/
inductive InstallResult where
  | path (p : String)
  | sentinelTrue
  | failed (e : InstFailure)

/-- The environment one `run_installer` call observes: whether the
installer file exists, whether the installer subprocess exits zero, and
the `.jar` files (name, size) present in the target directory after the
installer ran. -/
structure IEnv where
  installerExists : Bool
  runOk : Bool
  jars : List (String × Nat)

/-- `Path.name`: the component after the last separator. -/
def pathName (p : String) : String :=
  String.mk ((splitCharsAux (fun c => c == '/') p.data []).getLastD [])

/-- `Path.stem`: the name without its final suffix (a leading dot does
not start a suffix). -/
def pathStem (p : String) : String :=
  let name := (pathName p).data
  match name.reverse.dropWhile (fun c => !(c == '.')) with
  | [] => String.mk name
  | _ :: rest => if rest.isEmpty then String.mk name else String.mk rest.reverse

/-- Python `max(candidates, key=os.path.getsize)`: first element of
maximal size. -/
def maxBySize : List (String × Nat) → Option (String × Nat)
  | [] => none
  | x :: xs => some (xs.foldl (fun acc y => if y.2 > acc.2 then y else acc) x)

/-- `run_installer` (playport.py:1056): dispatch on substrings of the
lowered installer stem (so a NeoForge installer, whose name contains
`forge`, takes the first branch and is recognized again in
post-processing), fail fast for Fabric/Quilt when the Minecraft version
is missing, run the subprocess, then discover the output: the `True`
sentinel for NeoForge, the largest non-installer jar for Forge, the fixed
launch jar for Fabric/Quilt. -/
def run_installer (installer_path target_folder : String) (mc_version : Option String)
    (env : IEnv) : InstallResult :=
  if !env.installerExists then .failed .installerMissing
  else
    let software_name := lowerStr (pathStem installer_path)
    if containsSub software_name "forge" then
      if env.runOk then
        if containsSub software_name "neoforge" then .sentinelTrue
        else
          let candidates := env.jars.filter (fun f => !(containsSub (lowerStr f.1) "installer"))
          match maxBySize candidates with
          | some jar => .path (target_folder ++ "/" ++ jar.1)
          | none => .failed .noForgeJar
      else .failed .processError
    else if containsSub software_name "neoforge" then
      if env.runOk then .sentinelTrue else .failed .processError
    else if containsSub software_name "fabric" then
      if optFalsy mc_version then .failed .mcVersionRequired
      else if env.runOk then .path (target_folder ++ "/fabric-server-launch.jar")
      else .failed .processError
    else if containsSub software_name "quilt" then
      if optFalsy mc_version then .failed .mcVersionRequired
      else if env.runOk then .path (target_folder ++ "/quilt-server-launch.jar")
      else .failed .processError
    else .failed .unsupported

/-- The installer handling of `PlayPort.create_server` (playport.py:504):
for installer-based software, a `False` result aborts, the `True`
sentinel keeps the downloaded artifact as the executable, and a path
result replaces it. -/
def serverExecPath (software : String) (jarPath : String) (r : InstallResult) : Option String :=
  if lowerStr software == "forge" || lowerStr software == "fabric" ||
      lowerStr software == "neoforge" || lowerStr software == "quilt" then
    match r with
    | .failed _ => none
    | .sentinelTrue => some jarPath
    | .path p => some p
  else some jarPath

/-- Whether a value is a Python list. -/
def isJarr : JVal → Bool
  | .jarr _ => true
  | _ => false

/-- Whether a value is a Python string. -/
def isJstr : JVal → Bool
  | .jstr _ => true
  | _ => false

theorem keyLtB_trans : ∀ a b c : List Int, keyLtB a b = true → keyLtB b c = true →
    keyLtB a c = true := by
  intro a
  induction a with
  | nil =>
    intro b c h1 h2
    cases b <;> cases c <;> simp_all [keyLtB]
  | cons x xs ih =>
    intro b c h1 h2
    cases b with
    | nil => simp [keyLtB] at h1
    | cons y ys =>
      cases c with
      | nil => simp [keyLtB] at h2
      | cons z zs =>
        simp only [keyLtB] at h1 h2 ⊢
        by_cases hxy : x < y
        · by_cases hyz : y < z
          · rw [if_pos (by omega)]
          · rw [if_pos hxy] at h1
            rw [if_neg hyz] at h2
            by_cases hzy : z < y
            · rw [if_pos hzy] at h2; exact absurd h2 (by simp)
            · rw [if_neg hzy] at h2
              rw [if_pos (by omega)]
        · rw [if_neg hxy] at h1
          by_cases hyx : y < x
          · rw [if_pos hyx] at h1; exact absurd h1 (by simp)
          · rw [if_neg hyx] at h1
            by_cases hyz : y < z
            · rw [if_pos (by omega)]
            · rw [if_neg hyz] at h2
              by_cases hzy : z < y
              · rw [if_pos hzy] at h2; exact absurd h2 (by simp)
              · rw [if_neg hzy] at h2
                rw [if_neg (by omega : ¬ x < z), if_neg (by omega : ¬ z < x)]
                exact ih ys zs h1 h2

theorem keyLtB_conn : ∀ a b : List Int, keyLtB a b = true ∨ a = b ∨ keyLtB b a = true := by
  intro a
  induction a with
  | nil =>
    intro b
    cases b with
    | nil => right; left; rfl
    | cons y ys => left; rfl
  | cons x xs ih =>
    intro b
    cases b with
    | nil => right; right; rfl
    | cons y ys =>
      by_cases hxy : x < y
      · left; simp [keyLtB, hxy]
      · by_cases hyx : y < x
        · right; right; simp [keyLtB, hyx]
        · have hxe : x = y := by omega
          subst hxe
          rcases ih ys with h | h | h
          · left; simp [keyLtB, h]
          · right; left; rw [h]
          · right; right; simp [keyLtB, h]

theorem keyLtB_irrefl : ∀ a : List Int, keyLtB a a = false := by
  intro a
  induction a with
  | nil => rfl
  | cons x xs ih => simp [keyLtB, ih]

instance : IsTrans String descR where
  trans := by
    intro a b c hab hbc
    unfold descR at *
    by_contra h
    have h' : keyLtB (version_key a) (version_key c) = true := by
      cases hx : keyLtB (version_key a) (version_key c) <;> simp_all
    rcases keyLtB_conn (version_key a) (version_key b) with hx | hx | hx
    · simp [hx] at hab
    · rw [hx] at h'
      simp [h'] at hbc
    · have hlt := keyLtB_trans _ _ _ hx h'
      simp [hlt] at hbc

instance : IsTotal String descR where
  total := by
    intro a b
    unfold descR
    by_cases hab : keyLtB (version_key a) (version_key b) = false
    · left; exact hab
    · right
      have hab' : keyLtB (version_key a) (version_key b) = true := by
        cases hx : keyLtB (version_key a) (version_key b) <;> simp_all
      by_contra hc
      have hba : keyLtB (version_key b) (version_key a) = true := by
        cases hx : keyLtB (version_key b) (version_key a) <;> simp_all
      have := keyLtB_trans _ _ _ hab' hba
      rw [keyLtB_irrefl] at this
      exact absurd this (by simp)

theorem sortDescStr_sorted (l : List String) : (sortDescStr l).Pairwise descR :=
  List.sorted_insertionSort descR l

theorem sortDescStr_take_sorted (l : List String) (n : Nat) :
    ((sortDescStr l).take n).Pairwise descR :=
  (sortDescStr_sorted l).sublist (List.take_sublist n _)

theorem hasPrefixL_iff : ∀ p l : List Char, hasPrefixL p l = true ↔ p <+: l := by
  intro p
  induction p with
  | nil => intro l; simp [hasPrefixL, List.nil_prefix]
  | cons a as ih =>
    intro l
    cases l with
    | nil => simp [hasPrefixL, List.prefix_nil]
    | cons b bs =>
      rw [List.cons_prefix_cons]
      simp [hasPrefixL, ih]

theorem hasInfixL_iff (p : List Char) : ∀ l : List Char, hasInfixL p l = true ↔ p <:+: l := by
  intro l
  induction l with
  | nil => simp [hasInfixL, List.infix_nil, List.isEmpty_iff]
  | cons c rest ih =>
    rw [List.infix_cons_iff]
    simp [hasInfixL, hasPrefixL_iff, ih]

theorem containsSub_forge_of_neoforge (s : String) (h : containsSub s "neoforge" = true) :
    containsSub s "forge" = true := by
  unfold containsSub at *
  rw [hasInfixL_iff] at *
  have hsub : ("forge" : String).data <:+: ("neoforge" : String).data := by
    rw [← hasInfixL_iff]; rfl
  exact hsub.trans h

theorem optFalsy_some_ne (v : String) (h : v ≠ "") : optFalsy (some v) = false := by
  cases v with
  | mk data =>
    cases data with
    | nil => exact absurd rfl h
    | cons c cs => simp [optFalsy]

theorem pyFalsy_jstr_append_left (a b : String) (h : pyFalsy (.jstr a) = false) :
    pyFalsy (.jstr (a ++ b)) = false := by
  simp only [pyFalsy, String.data_append] at *
  cases ha : a.data with
  | nil => rw [ha] at h; simp at h
  | cons c cs => simp

theorem resLen_dummyJ : resLen dummyJ = 100 := rfl

theorem resLen_fetchJson_le (sw : String) (data : JVal) : resLen (fetchJson sw data) ≤ 100 := by
  have hd : resLen dummyJ ≤ 100 := by rw [resLen_dummyJ]
  have ht : ∀ l : List JVal, resLen (.jarr (l.take 100)) ≤ 100 := by
    intro l; simp [resLen, List.length_take]
  have hr : ∀ v r, revTake100 v = some r → resLen r ≤ 100 := by
    intro v r h
    cases v <;> simp [revTake100] at h <;> subst h <;> simp [resLen, List.length_take]
  unfold fetchJson
  repeat' split
  all_goals first
    | exact hd
    | apply ht
    | (apply hr _ _ (by assumption))

theorem resLen_fetchForge_le (body : BodyVal) : resLen (fetchForge body) ≤ 100 := by
  have hd : resLen dummyJ ≤ 100 := by rw [resLen_dummyJ]
  unfold fetchForge
  repeat' split
  all_goals first
    | exact hd
    | simp [resLen, List.length_take]

theorem resLen_fetchSpigot_le (body : BodyVal) : resLen (fetchSpigot body) ≤ 100 := by
  simp [fetchSpigot, resLen, List.length_take]

/-- C1, amended: for every provider identifier and every upstream world,
`fetch_versions` returns at most 100 entries; the "never empty" half of
the claim fails (see the counterexample), because a reachable upstream
that presents a well-formed listing with no versions is passed through
as an empty list. -/
theorem fetch_versions_len_le_100 (software : String) (resp : FetchWorld) :
    resLen (fetch_versions software resp) ≤ 100 := by
  have hd : resLen dummyJ ≤ 100 := by rw [resLen_dummyJ]
  unfold fetch_versions
  dsimp only
  split
  · simp [resLen]
  · split
    · exact hd
    · split
      · exact hd
      · split
        · exact resLen_fetchForge_le _
        · split
          · exact resLen_fetchSpigot_le _
          · split
            · exact hd
            · exact resLen_fetchJson_le _ _

/-- C1, counterexample: the Purpur adapter given the well-formed upstream
response with body `json(versions = [])` returns the empty list, so
`fetch_versions` does return an empty sequence for a provider. -/
theorem fetch_versions_can_be_empty :
    fetch_versions "purpur" (some ⟨none, some (.jobj [("versions", .jarr [])]), []⟩) = .jarr [] ∧
      resLen (fetch_versions "purpur" (some ⟨none, some (.jobj [("versions", .jarr [])]), []⟩)) = 0 :=
  ⟨rfl, rfl⟩

/-- C2, amended: for every provider except nukkit (which makes no network
call), an unreachable upstream or non-2xx response yields exactly the
dummy sequence, and for every such provider except spigot (whose HTML
scraping never raises a parse error) a body that parses as neither XML
nor JSON yields the dummy sequence as well. -/
theorem fetch_versions_failure_dummy (s : String)
    (hs : s ∈ ["vanilla", "paper", "folia", "velocity", "waterfall", "bungeecord", "forge",
      "pocketmine-mp", "fabric", "neoforge", "quilt", "spigot", "purpur", "pufferfish"]) :
    fetch_versions s none = dummyJ ∧
      (s ≠ "spigot" → fetch_versions s (some ⟨none, none, []⟩) = dummyJ) := by
  fin_cases hs <;> refine ⟨rfl, fun h => ?_⟩ <;> first | rfl | exact absurd rfl h

/-- C2, witness: the Paper provider with an unreachable upstream or an
unparsable body yields the dummy sequence. -/
theorem fetch_versions_failure_dummy_witness :
    fetch_versions "paper" none = dummyJ ∧
      ("paper" ≠ "spigot" → fetch_versions "paper" (some ⟨none, none, []⟩) = dummyJ) :=
  fetch_versions_failure_dummy "paper" (by simp)

/-- C2, counterexample: for the nukkit provider an unreachable upstream
does not yield the dummy sequence; `fetch_versions` returns the static
`["Latest"]` without any network call. -/
theorem fetch_versions_nukkit_not_dummy :
    fetch_versions "nukkit" none = .jarr [.jstr "Latest"] ∧
      fetch_versions "nukkit" none ≠ dummyJ := by
  refine ⟨rfl, fun h => ?_⟩
  have h1 : resLen (fetch_versions "nukkit" none) = 1 := rfl
  rw [h, resLen_dummyJ] at h1
  omega

/-- C3, amended: for the Maven-XML providers (forge, neoforge) and the
HTML-listing provider (spigot), the returned sequence is sorted
non-increasingly (weakly descending) under the version-aware comparator;
strict descent fails exactly when two distinct listed identifiers share
the same key (see the counterexample). -/
theorem fetch_versions_sorted_desc (s : String) (texts : List (Option String))
    (asJson : Option JVal) (hrefs : List String) (hs : s = "forge" ∨ s = "neoforge")
    (hall : ∀ t ∈ texts, t.isSome) :
    (∃ l : List String,
      fetch_versions s (some ⟨some texts, asJson, hrefs⟩) = .jarr (l.map .jstr) ∧
        l.Pairwise descR) ∧
    (∀ body : BodyVal, ∃ l : List String,
      fetch_versions "spigot" (some body) = .jarr (l.map .jstr) ∧ l.Pairwise descR) := by
  have hany : texts.any (fun t => t.isNone) = false := by
    rw [List.any_eq_false]
    intro t ht
    have h2 := hall t ht
    cases t with
    | none => simp at h2
    | some x => simp
  constructor
  · refine ⟨(sortDescStr (texts.filterMap id)).take 100, ?_, sortDescStr_take_sorted _ _⟩
    rcases hs with h | h <;> subst h <;>
      · show fetchForge ⟨some texts, asJson, hrefs⟩ = _
        unfold fetchForge
        simp only [hany]
        rfl
  · intro body
    exact ⟨(sortDescStr (body.hrefs.filterMap spigotExtract)).take 100, rfl,
      sortDescStr_take_sorted _ _⟩

/-- C3, witness: a Forge listing and a Spigot listing are returned sorted
descending under the comparator. -/
theorem fetch_versions_sorted_desc_witness :
    (∃ l : List String,
      fetch_versions "forge" (some ⟨some [some "1.2.5", some "1.20.1"], none, []⟩) =
        .jarr (l.map .jstr) ∧ l.Pairwise descR) ∧
    (∃ l : List String,
      fetch_versions "spigot" (some ⟨none, none, ["1.20.1.json"]⟩) =
        .jarr (l.map .jstr) ∧ l.Pairwise descR) :=
  ⟨(fetch_versions_sorted_desc "forge" [some "1.2.5", some "1.20.1"] none []
      (Or.inl rfl) (by decide)).1,
    (fetch_versions_sorted_desc "forge" [some "1.2.5", some "1.20.1"] none []
      (Or.inl rfl) (by decide)).2 ⟨none, none, ["1.20.1.json"]⟩⟩

/-- C3, counterexample: the distinct Forge versions `1.0` and `1-0` share
the version key, so the returned sequence `["1.0", "1-0"]` is not
strictly descending under the comparator. -/
theorem fetch_versions_not_strictly_desc :
    fetch_versions "forge" (some ⟨some [some "1.0", some "1-0"], none, []⟩) =
      .jarr [.jstr "1.0", .jstr "1-0"] ∧
    version_key "1.0" = version_key "1-0" ∧
    keyLtB (version_key "1-0") (version_key "1.0") = false ∧
    "1.0" ≠ "1-0" :=
  ⟨rfl, rfl, rfl, by decide⟩

theorem revTake100_shape (vv r : JVal) (h : revTake100 vv = some r) :
    (isJarr r || isJstr r) = true := by
  cases vv <;> simp [revTake100] at h
  all_goals rw [← h]
  all_goals rfl

theorem fetchJson_shape (sw : String) (data : JVal) :
    (isJarr (fetchJson sw data) || isJstr (fetchJson sw data)) = true := by
  unfold fetchJson
  repeat' split
  all_goals first
    | rfl
    | exact revTake100_shape _ _ (by assumption)

theorem fetchForge_shape (body : BodyVal) :
    (isJarr (fetchForge body) || isJstr (fetchForge body)) = true := by
  unfold fetchForge
  repeat' split
  all_goals rfl

/-- C9, amended: `fetch_versions` is total — every raised error is caught
at its boundary — and a software identifier with no configured URL yields
the dummy list; the result is a Python list in every case except the
degenerate one in which a JSON provider's `versions` field is itself a
string, in which case a (reversed, truncated) string is returned (see the
counterexample). -/
theorem fetch_versions_total_fallback (software : String) (resp : FetchWorld) :
    (versions_urls (lowerStr software) = none → fetch_versions software resp = dummyJ) ∧
      (isJarr (fetch_versions software resp) || isJstr (fetch_versions software resp)) = true := by
  constructor
  · intro h
    have hnk : (lowerStr software == "nukkit") = false := by
      cases hx : (lowerStr software == "nukkit") with
      | false => rfl
      | true =>
        have he : lowerStr software = "nukkit" := by
          rw [← beq_iff_eq (a := lowerStr software) (b := "nukkit")]
          exact hx
        rw [he] at h
        simp [versions_urls] at h
    unfold fetch_versions
    dsimp only
    rw [hnk, h]
    simp
  · unfold fetch_versions
    dsimp only
    split
    · rfl
    · split
      · rfl
      · split
        · rfl
        · split
          · exact fetchForge_shape _
          · split
            · rfl
            · split
              · rfl
              · exact fetchJson_shape _ _

/-- C9, witness: an identifier outside the provider table yields the
dummy list. -/
theorem fetch_versions_total_fallback_witness :
    fetch_versions "not-a-provider" none = dummyJ :=
  (fetch_versions_total_fallback "not-a-provider" none).1 rfl

/-- C9, counterexample: when the Purpur upstream returns
`json(versions = "ab")`, `fetch_versions` returns the string `"ba"`, not
a list. -/
theorem fetch_versions_purpur_string_result :
    fetch_versions "purpur" (some ⟨none, some (.jobj [("versions", .jstr "ab")]), []⟩) =
      .jstr "ba" ∧
    isJarr (fetch_versions "purpur" (some ⟨none, some (.jobj [("versions", .jstr "ab")]), []⟩)) =
      false :=
  ⟨rfl, rfl⟩

theorem pyFalsy_jstr_append_right (a b : String) (h : pyFalsy (.jstr b) = false) :
    pyFalsy (.jstr (a ++ b)) = false := by
  simp only [pyFalsy, String.data_append] at *
  cases a.data with
  | nil => simpa using h
  | cons c cs => rfl

/-- C4, amended: resolution checks upstream existence only for the
index-consulting providers — for vanilla a version absent from the
manifest yields a not-found failure — while the direct-template providers
(spigot, forge, neoforge, quilt, bungeecord) substitute any nonempty
version into their fixed `https://` template without an existence check,
returning a well-formed templated URL whose failure can only surface at
download time. -/
theorem resolve_notfound_and_templates (v : String) (w : DlWorld) (hv : v ≠ "") :
    (resolveArtifact "spigot" (some v) w =
      .ok (.jstr ("https://cdn.getbukkit.org/spigot/spigot-" ++ v ++ ".jar"),
        .jstr ("spigot-" ++ v ++ ".jar"))) ∧
    (resolveArtifact "forge" (some v) w =
      .ok (.jstr ("https://maven.minecraftforge.net/net/minecraftforge/forge/" ++ v ++
          "/forge-" ++ v ++ "-installer.jar"),
        .jstr ("forge-" ++ v ++ "-installer.jar"))) ∧
    (resolveArtifact "neoforge" (some v) w =
      .ok (.jstr ("https://maven.neoforged.net/releases/net/neoforged/neoforge/" ++ v ++
          "/neoforge-" ++ v ++ "-installer.jar"),
        .jstr ("neoforge-" ++ v ++ "-installer.jar"))) ∧
    (resolveArtifact "quilt" (some v) w =
      .ok (.jstr ("https://maven.quiltmc.org/repository/release/org/quiltmc/quilt-installer/" ++
          v ++ "/quilt-installer-" ++ v ++ ".jar"),
        .jstr ("quilt-installer-" ++ v ++ ".jar"))) ∧
    (resolveArtifact "bungeecord" (some v) w =
      .ok (.jstr ("https://ci.md-5.net/job/BungeeCord/" ++ v ++
          "/artifact/bootstrap/target/BungeeCord.jar"),
        .jstr ("BungeeCord-" ++ v ++ ".jar"))) ∧
    (∀ (m vsV : JVal) (vs : List JVal),
      w "https://launchermeta.mojang.com/mc/game/version_manifest.json" = some m →
      jget m "versions" = some vsV → iteratePy vsV = some vs → vanillaFind vs v = some none →
      resolveArtifact "vanilla" (some v) w =
        .error (.notFound ("Vanilla version " ++ v ++ " not found in manifest!"))) := by
  have hopt := optFalsy_some_ne v hv
  refine ⟨?_, ?_, ?_, ?_, ?_, ?_⟩
  · have h1 : pyFalsy (.jstr ("https://cdn.getbukkit.org/spigot/spigot-" ++ v ++ ".jar")) =
        false := pyFalsy_jstr_append_right _ ".jar" rfl
    have h2 : pyFalsy (.jstr ("spigot-" ++ v ++ ".jar")) = false :=
      pyFalsy_jstr_append_right _ ".jar" rfl
    unfold resolveArtifact requireVersion
    rw [hopt]
    simp [h1, h2, versions_urls]
  · have h1 : pyFalsy (.jstr ("https://maven.minecraftforge.net/net/minecraftforge/forge/" ++
        v ++ "/forge-" ++ v ++ "-installer.jar")) = false :=
      pyFalsy_jstr_append_right _ "-installer.jar" rfl
    have h2 : pyFalsy (.jstr ("forge-" ++ v ++ "-installer.jar")) = false :=
      pyFalsy_jstr_append_right _ "-installer.jar" rfl
    unfold resolveArtifact requireVersion
    rw [hopt]
    simp [h1, h2, versions_urls]
  · have h1 : pyFalsy (.jstr ("https://maven.neoforged.net/releases/net/neoforged/neoforge/" ++
        v ++ "/neoforge-" ++ v ++ "-installer.jar")) = false :=
      pyFalsy_jstr_append_right _ "-installer.jar" rfl
    have h2 : pyFalsy (.jstr ("neoforge-" ++ v ++ "-installer.jar")) = false :=
      pyFalsy_jstr_append_right _ "-installer.jar" rfl
    unfold resolveArtifact requireVersion
    rw [hopt]
    simp [h1, h2, versions_urls]
  · have h1 : pyFalsy (.jstr ("https://maven.quiltmc.org/repository/release/org/quiltmc/quilt-installer/" ++
        v ++ "/quilt-installer-" ++ v ++ ".jar")) = false :=
      pyFalsy_jstr_append_right _ ".jar" rfl
    have h2 : pyFalsy (.jstr ("quilt-installer-" ++ v ++ ".jar")) = false :=
      pyFalsy_jstr_append_right _ ".jar" rfl
    unfold resolveArtifact requireVersion
    rw [hopt]
    simp [h1, h2, versions_urls]
  · have h1 : pyFalsy (.jstr ("https://ci.md-5.net/job/BungeeCord/" ++ v ++
        "/artifact/bootstrap/target/BungeeCord.jar")) = false :=
      pyFalsy_jstr_append_right _ "/artifact/bootstrap/target/BungeeCord.jar" rfl
    have h2 : pyFalsy (.jstr ("BungeeCord-" ++ v ++ ".jar")) = false :=
      pyFalsy_jstr_append_right _ ".jar" rfl
    unfold resolveArtifact requireVersion
    rw [hopt]
    simp [h1, h2, versions_urls]
  · intro m vsV vs hm hvs hit hfind
    unfold resolveArtifact requireVersion resolveVanilla getJson liftU
    rw [hopt]
    simp [hm, hvs, hit, hfind, versions_urls, Bind.bind, Except.bind, pyFalsy]

/-- C4, witness: with the concrete version `1.20.1` the spigot template
is produced verbatim, and with a manifest world that lists only `1.21`
the vanilla resolution of `1.20.1` fails as not found. -/
theorem resolve_notfound_and_templates_witness :
    (resolveArtifact "spigot" (some "1.20.1")
      (fun u => if u == "https://launchermeta.mojang.com/mc/game/version_manifest.json" then
        some (.jobj [("versions", .jarr [.jobj [("id", .jstr "1.21")]])]) else none) =
      .ok (.jstr ("https://cdn.getbukkit.org/spigot/spigot-" ++ "1.20.1" ++ ".jar"),
        .jstr ("spigot-" ++ "1.20.1" ++ ".jar"))) ∧
    (resolveArtifact "vanilla" (some "1.20.1")
      (fun u => if u == "https://launchermeta.mojang.com/mc/game/version_manifest.json" then
        some (.jobj [("versions", .jarr [.jobj [("id", .jstr "1.21")]])]) else none) =
      .error (.notFound ("Vanilla version " ++ "1.20.1" ++ " not found in manifest!"))) := by
  have h := resolve_notfound_and_templates "1.20.1"
    (fun u => if u == "https://launchermeta.mojang.com/mc/game/version_manifest.json" then
      some (.jobj [("versions", .jarr [.jobj [("id", .jstr "1.21")]])]) else none)
    (by decide)
  exact ⟨h.1, h.2.2.2.2.2 (.jobj [("versions", .jarr [.jobj [("id", .jstr "1.21")]])])
    (.jarr [.jobj [("id", .jstr "1.21")]]) [.jobj [("id", .jstr "1.21")]] rfl rfl rfl rfl⟩

/-- C4, counterexample: in a world where the upstream lists no versions
at all, the spigot resolution of the nonexistent version
`does-not-exist` still returns a successfully resolved URL — the claimed
not-found failure does not occur. -/
theorem resolve_spigot_nonexistent_ok :
    resolveArtifact "spigot" (some "does-not-exist") (fun _ => none) =
      .ok (.jstr "https://cdn.getbukkit.org/spigot/spigot-does-not-exist.jar",
        .jstr "spigot-does-not-exist.jar") ∧
    (resolveArtifact "spigot" (some "does-not-exist") (fun _ => none)).isOk = true :=
  ⟨rfl, rfl⟩

/-- C5, confirmed: for each PaperMC-family (build-indirection) provider,
when the upstream `{base}/versions/{version}` response carries a
non-empty `builds` array, resolution takes its last element as the
latest build and returns the download URL and file name with exactly
that build identifier substituted; a one-element array is the special
case `init = []`. -/
theorem resolve_paper_family_latest_build (t v : String) (w : DlWorld)
    (j lb : JVal) (init : List JVal)
    (ht : t = "waterfall" ∨ t = "velocity" ∨ t = "folia" ∨ t = "paper") (hv : v ≠ "")
    (hw : w ((versions_urls t).getD "" ++ "/versions/" ++ v) = some j)
    (hb : jget j "builds" = some (.jarr (init ++ [lb]))) :
    resolveArtifact t (some v) w =
      .ok (.jstr ("https://api.papermc.io/v2/projects/" ++ t ++ "/versions/" ++ v ++
          "/builds/" ++ pyStr lb ++ "/downloads/" ++
          (t ++ "-" ++ v ++ "-" ++ pyStr lb ++ ".jar")),
        .jstr (t ++ "-" ++ v ++ "-" ++ pyStr lb ++ ".jar")) := by
  have hopt := optFalsy_some_ne v hv
  have hlast : pyLast (.jarr (init ++ [lb])) = some lb := by
    simp [pyLast]
  rcases ht with h | h | h | h <;> subst h <;>
    (unfold resolveArtifact requireVersion resolvePaperFamily getJson liftU
     rw [hopt]
     simp only [versions_urls] at hw
     simp at hw
     simp [hw, hb, hlast, versions_urls, Bind.bind, Except.bind]
     constructor
     · exact pyFalsy_jstr_append_right _ _ (pyFalsy_jstr_append_right _ ".jar" rfl)
     · exact pyFalsy_jstr_append_right _ ".jar" rfl)

/-- C5, witness: Paper version `1.20.1` whose upstream lists the single
build `196` resolves to the URL and file name embedding build `196`. -/
theorem resolve_paper_family_latest_build_witness :
    resolveArtifact "paper" (some "1.20.1")
      (fun u => if u == "https://api.papermc.io/v2/projects/paper/versions/1.20.1" then
        some (.jobj [("builds", .jarr [.jnum 196])]) else none) =
      .ok (.jstr ("https://api.papermc.io/v2/projects/" ++ "paper" ++ "/versions/" ++
          "1.20.1" ++ "/builds/" ++ pyStr (.jnum 196) ++ "/downloads/" ++
          ("paper" ++ "-" ++ "1.20.1" ++ "-" ++ pyStr (.jnum 196) ++ ".jar")),
        .jstr ("paper" ++ "-" ++ "1.20.1" ++ "-" ++ pyStr (.jnum 196) ++ ".jar")) :=
  resolve_paper_family_latest_build "paper" "1.20.1"
    (fun u => if u == "https://api.papermc.io/v2/projects/paper/versions/1.20.1" then
      some (.jobj [("builds", .jarr [.jnum 196])]) else none)
    (.jobj [("builds", .jarr [.jnum 196])]) (.jnum 196) []
    (Or.inr (Or.inr (Or.inr rfl))) (by decide) rfl rfl

/-- C6, confirmed: the Fabric resolution is independent of the requested
server version — for any two version arguments (and any world), both the
URL-determination step and the whole download produce identical results,
determined only by the side lookup of the installer's own current
version. -/
theorem resolve_fabric_version_independent (v1 v2 : Option String) (w : DlWorld)
    (dest : String) (fs : FS) :
    resolveArtifact "fabric" v1 w = resolveArtifact "fabric" v2 w ∧
      download_server_jar "fabric" v1 dest w fs = download_server_jar "fabric" v2 dest w fs := by
  have h : ∀ v : Option String, resolveArtifact "fabric" v w =
      (match resolveFabric w with
        | .error e => .error e
        | .ok (u, f) => if pyFalsy u || pyFalsy f then .error .undetermined else .ok (u, f)) := by
    intro v
    unfold resolveArtifact
    simp [versions_urls]
  refine ⟨(h v1).trans (h v2).symm, ?_⟩
  unfold download_server_jar
  rw [(h v1).trans (h v2).symm]

/-- C7, confirmed: a NeoForge installer (its stem contains `neoforge`)
that exists and exits successfully makes `run_installer` return the
Python `True` sentinel, and `create_server` then keeps the originally
downloaded artifact as the server executable. -/
theorem run_installer_neoforge_sentinel (installer target : String) (mc : Option String)
    (env : IEnv) (hn : containsSub (lowerStr (pathStem installer)) "neoforge" = true)
    (hex : env.installerExists = true) (hok : env.runOk = true) :
    run_installer installer target mc env = .sentinelTrue ∧
      ∀ jarPath, serverExecPath "neoforge" jarPath (run_installer installer target mc env) =
        some jarPath := by
  have hf : containsSub (lowerStr (pathStem installer)) "forge" = true :=
    containsSub_forge_of_neoforge _ hn
  have hmain : run_installer installer target mc env = .sentinelTrue := by
    unfold run_installer
    simp [hex, hf, hok, hn]
  refine ⟨hmain, fun jarPath => ?_⟩
  rw [hmain]
  rfl

/-- C7, witness: a concrete NeoForge installer run returns the sentinel
and the pipeline keeps the downloaded installer-side artifact. -/
theorem run_installer_neoforge_sentinel_witness :
    run_installer "servers/x/neoforge-20.4.220-installer.jar" "servers/x" none
        ⟨true, true, []⟩ = .sentinelTrue ∧
      serverExecPath "neoforge" "servers/x/neoforge-20.4.220-installer.jar"
        (run_installer "servers/x/neoforge-20.4.220-installer.jar" "servers/x" none
          ⟨true, true, []⟩) = some "servers/x/neoforge-20.4.220-installer.jar" := by
  have h := run_installer_neoforge_sentinel "servers/x/neoforge-20.4.220-installer.jar"
    "servers/x" none ⟨true, true, []⟩ rfl rfl rfl
  exact ⟨h.1, h.2 _⟩

/-- C8, confirmed: exactly the Fabric and Quilt installers require the
secondary target-Minecraft-version input — with it omitted they fail
fast with the dedicated error before the subprocess outcome can matter
(the result is the same for every environment) — while the Forge and
NeoForge installers proceed without it. -/
theorem run_installer_mc_version_requirements :
    (∀ (p tgt : String) (env : IEnv),
      containsSub (lowerStr (pathStem p)) "forge" = false →
      containsSub (lowerStr (pathStem p)) "fabric" = true →
      env.installerExists = true →
      run_installer p tgt none env = .failed .mcVersionRequired) ∧
    (∀ (p tgt : String) (env : IEnv),
      containsSub (lowerStr (pathStem p)) "forge" = false →
      containsSub (lowerStr (pathStem p)) "fabric" = false →
      containsSub (lowerStr (pathStem p)) "quilt" = true →
      env.installerExists = true →
      run_installer p tgt none env = .failed .mcVersionRequired) ∧
    (∀ (p tgt : String) (mc : Option String) (env : IEnv),
      containsSub (lowerStr (pathStem p)) "neoforge" = true →
      env.installerExists = true → env.runOk = true →
      run_installer p tgt mc env = .sentinelTrue) ∧
    (∀ (p tgt n : String) (sz : Nat) (mc : Option String) (env : IEnv),
      containsSub (lowerStr (pathStem p)) "forge" = true →
      containsSub (lowerStr (pathStem p)) "neoforge" = false →
      env.installerExists = true → env.runOk = true → env.jars = [(n, sz)] →
      containsSub (lowerStr n) "installer" = false →
      run_installer p tgt mc env = .path (tgt ++ "/" ++ n)) := by
  refine ⟨?_, ?_, ?_, ?_⟩
  · intro p tgt env hfo hfa hex
    have hnn : containsSub (lowerStr (pathStem p)) "neoforge" = false := by
      cases hx : containsSub (lowerStr (pathStem p)) "neoforge" with
      | false => rfl
      | true => rw [containsSub_forge_of_neoforge _ hx] at hfo; exact hfo
    unfold run_installer
    simp [hex, hfo, hnn, hfa, optFalsy]
  · intro p tgt env hfo hfa hq hex
    have hnn : containsSub (lowerStr (pathStem p)) "neoforge" = false := by
      cases hx : containsSub (lowerStr (pathStem p)) "neoforge" with
      | false => rfl
      | true => rw [containsSub_forge_of_neoforge _ hx] at hfo; exact hfo
    unfold run_installer
    simp [hex, hfo, hnn, hfa, hq, optFalsy]
  · intro p tgt mc env hn hex hok
    have hf := containsSub_forge_of_neoforge _ hn
    unfold run_installer
    simp [hex, hf, hok, hn]
  · intro p tgt n sz mc env hf hnn hex hok hjars hni
    unfold run_installer
    simp [hex, hf, hok, hnn, hjars, hni, maxBySize]

/-- C8, witness: concrete runs — Fabric and Quilt installers without a
Minecraft version fail fast (even with a would-be-successful subprocess
environment for Quilt and a failing one for Fabric), while NeoForge and
Forge complete without one. -/
theorem run_installer_mc_version_requirements_witness :
    run_installer "servers/x/fabric-installer-1.0.1.jar" "servers/x" none
        ⟨true, false, []⟩ = .failed .mcVersionRequired ∧
      run_installer "servers/x/quilt-installer-0.19.0.jar" "servers/x" none
        ⟨true, true, []⟩ = .failed .mcVersionRequired ∧
      run_installer "servers/x/neoforge-20.4.220-installer.jar" "servers/x" none
        ⟨true, true, []⟩ = .sentinelTrue ∧
      run_installer "servers/x/forge-1.19.4-45.0.49-installer.jar" "servers/x" none
        ⟨true, true, [("server.jar", 100)]⟩ = .path ("servers/x" ++ "/" ++ "server.jar") :=
  ⟨run_installer_mc_version_requirements.1 "servers/x/fabric-installer-1.0.1.jar" "servers/x"
      ⟨true, false, []⟩ rfl rfl rfl,
    run_installer_mc_version_requirements.2.1 "servers/x/quilt-installer-0.19.0.jar" "servers/x"
      ⟨true, true, []⟩ rfl rfl rfl rfl,
    run_installer_mc_version_requirements.2.2.1 "servers/x/neoforge-20.4.220-installer.jar"
      "servers/x" none ⟨true, true, []⟩ rfl rfl rfl,
    run_installer_mc_version_requirements.2.2.2 "servers/x/forge-1.19.4-45.0.49-installer.jar"
      "servers/x" "server.jar" 100 none ⟨true, true, [("server.jar", 100)]⟩ rfl rfl rfl rfl rfl rfl⟩

/-- C10, confirmed: `download_server_jar` creates the destination
directory before validating the server type or resolving anything, so
after every call — every failure path included — the destination
directory exists. -/
theorem download_server_jar_creates_dest (t : String) (v : Option String) (dest : String)
    (w : DlWorld) (fs : FS) :
    dest ∈ (download_server_jar t v dest w fs).1.dirs := by
  unfold download_server_jar
  dsimp only
  repeat' split
  all_goals simp [FS.mkdirP, FS.addFile]
